import Mathlib

/-!
Shallow embedding of `src/shippo-integration/shippo_webhook.py`: the Shippo
webhook reconciliation handlers (`handle_transaction_created`,
`handle_transaction_updated`, `handle_track_updated`), the carrier classifier
(`detect_carrier`), the shipment-list query (`get_shippo_shipments`) and the
webhook endpoint (`shippo_webhook`), together with theorems settling the
specification claims about them.

Modelling conventions:
* The sqlite table `shippo_tracking` is a list of rows in rowid order
  (`ShippoStore`); rows are never deleted, inserts append, `AUTOINCREMENT`
  ids are `length + 1`.
* SQL `NULL` is `Option.none`; `COALESCE(a, b)` is `a <|> b`; a comparison
  `col = ?` whose bound parameter is `NULL` matches no row (SQL three-valued
  logic), and so does `col != 'ERROR'` on a `NULL` column.
* A handler that raises a Python exception before its transaction commits
  (NOT NULL / UNIQUE violations, attribute access on `None`, binding a dict
  into a text column) returns `none`; the store is unchanged in that case.
* `CURRENT_TIMESTAMP` is an explicit `now : String` argument.
* JSON payload fields the handlers read with a non-null default are
  `Option (Option _)`: the outer `none` is an absent key (the default
  applies), `some none` is an explicit JSON `null`.
* The serialized `tracking_history` text column is modelled by the JSON
  value it decodes back to (`json.dumps`/`json.loads` round-trip): `HistVal`.
-/

namespace Shippo

/-- Python truthiness of an optional string: `None` and `""` are falsy. -/
def pyTruthy : Option String → Bool
  | none => false
  | some s => !(s == "")

/-- Python `str()` on an optional string: `str(None) = "None"`. -/
def pyStr : Option String → String
  | none => "None"
  | some s => s

/-- Python `str.upper` (ASCII): uppercase each character. -/
def pyUpper (s : String) : String := String.mk (s.toList.map Char.toUpper)

/-- Python `str.startswith` on a literal pattern. -/
def pyStartsWith (pre s : String) : Bool :=
  s.toList.take pre.toList.length == pre.toList

/-- Python `str.isdigit` (ASCII): true on nonempty all-digit strings. -/
def pyIsdigit (s : String) : Bool :=
  !s.toList.isEmpty && s.toList.all Char.isDigit

/-- Python `str.isalpha` (ASCII): true on nonempty all-letter strings. -/
def pyIsalpha (s : String) : Bool :=
  !s.toList.isEmpty && s.toList.all Char.isAlpha

/-- `detect_carrier` (shippo_webhook.py lines 86-100): carrier heuristics
applied in source order, first match wins. -/
def detect_carrier : Option String → String
  | none => "UNKNOWN"
  | some s =>
    if s == "" then "UNKNOWN"
    else
      let tn := pyUpper s
      if pyStartsWith "1Z" tn then "UPS"
      else if decide (12 ≤ tn.length) && pyIsdigit tn then "FEDEX"
      else if (decide (16 ≤ tn.length) && (tn.toList.head? == some '9') && pyIsdigit tn)
            || ((tn.length == 13) && pyIsalpha (String.mk (tn.toList.take 2))
                 && (String.mk (tn.toList.drop (tn.length - 2)) == "US")) then "USPS"
      else if ((tn.length == 10) || (tn.length == 11)) && pyIsdigit tn then "DHL"
      else "CARRIER"

/-- Modelled from the spec: the §4.1 classifier rule list, in the spec's
stated order with first match winning, written from the spec's words; it is
compared with `detect_carrier` for the rule-order part of the classifier
claim. -/
def specClassify : Option String → String
  | none => "UNKNOWN"
  | some s =>
    if s == "" then "UNKNOWN"
    else
      let t := pyUpper s
      if pyStartsWith "1Z" t then "UPS"
      else if decide (12 ≤ t.length) && pyIsdigit t then "FEDEX"
      else if (decide (16 ≤ t.length) && (t.toList.head? == some '9') && pyIsdigit t)
            || ((t.length == 13) && pyIsalpha (String.mk (t.toList.take 2))
                 && (String.mk (t.toList.drop (t.length - 2)) == "US")) then "USPS"
      else if ((t.length == 10) || (t.length == 11)) && pyIsdigit t then "DHL"
      else "CARRIER"

/-- The two JSON shapes the code distinguishes for `tracking_status`
(line 361: dict vs anything else, stringified): a structured object or a bare
string.  In the object, `status` is read with default `'UNKNOWN'`, so absent
key (outer `none`) and explicit null (`some none`) differ. -/
inductive StatusVal where
  | str (s : String)
  | obj (status : Option (Option String)) (status_details : Option String)
        (status_date : Option String)
deriving DecidableEq

/-- An `address_to` / `address_from` JSON object, restricted to the keys read. -/
structure Addr where
  name : Option String
  city : Option String
  state : Option String
  zip : Option String
  country : Option String
deriving DecidableEq

def emptyAddr : Addr := ⟨none, none, none, none, none⟩

/-- A `servicelevel` JSON object, restricted to the keys read. -/
structure ServiceLevel where
  name : Option String
  token : Option String
deriving DecidableEq

def emptyService : ServiceLevel := ⟨none, none⟩

/-- The `data` object of a webhook payload, restricted to the keys the three
handlers read.  Fields read with a non-null default (`tracking_status`,
`address_to`, `address_from`, `servicelevel`, `tracking_history`) are double
options: outer `none` = key absent (default applies), `some none` = explicit
JSON null.  The remaining fields default to `None`, so absent and null
coincide and a single `Option` suffices. -/
structure EventData where
  object_id : Option String
  tracking_number : Option String
  tracking_status : Option (Option StatusVal)
  metadata : Option String
  label_url : Option String
  tracking_url_provider : Option String
  eta : Option String
  object_created : Option String
  transaction : Option String
  carrier : Option String
  address_to : Option (Option Addr)
  address_from : Option (Option Addr)
  servicelevel : Option (Option ServiceLevel)
  tracking_history : Option (Option (List String))
deriving DecidableEq

/-- The payload `data` object with no keys (`{}` — also the default when the
envelope has no `data` key). -/
def emptyEventData : EventData :=
  ⟨none, none, none, none, none, none, none, none, none, none, none, none, none, none⟩

/-- The JSON value stored (serialized) in the `tracking_history` text column:
`json.dumps` of the payload's history.  `jnull` is the text `"null"`
(produced when the payload carries an explicit `tracking_history: null`),
`jarr` a serialized array.  History entries are opaque (modelled as strings);
the handlers never inspect them. -/
inductive HistVal where
  | jnull
  | jarr (entries : List String)
deriving DecidableEq

/-- One row of the `shippo_tracking` table (schema lines 35-74).
`transaction_id` is `NOT NULL UNIQUE`; every other data column is nullable. -/
structure ShippoRecord where
  id : Nat
  transaction_id : String
  tracking_number : Option String
  carrier : Option String
  status : Option String
  status_details : Option String
  metadata : Option String
  label_url : Option String
  tracking_url : Option String
  eta : Option String
  to_name : Option String
  to_city : Option String
  to_state : Option String
  to_zip : Option String
  to_country : Option String
  from_city : Option String
  from_state : Option String
  from_zip : Option String
  from_country : Option String
  service_name : Option String
  service_token : Option String
  tracking_history : Option HistVal
  created_at : Option String
  updated_at : Option String
  status_date : Option String
  delivered_at : Option String
deriving DecidableEq

/-- The `shippo_tracking` table, rows in rowid order (inserts append). -/
abbrev ShippoStore := List ShippoRecord

/-- `WHERE transaction_id = ?`: a `NULL` bind matches no row. -/
def tidMatches (tid? : Option String) (r : ShippoRecord) : Bool :=
  match tid? with
  | none => false
  | some tid => r.transaction_id == tid

/-- `data.get('tracking_status', dflt)` bound into a text column by the two
transaction handlers: absent key yields the default, explicit null binds SQL
`NULL`, a string binds itself, and a dict cannot be bound (sqlite3 raises
before the statement runs → outer `none`). -/
def bindTxnStatus (ts : Option (Option StatusVal)) (dflt : String) :
    Option (Option String) :=
  match ts with
  | none => some (some dflt)
  | some none => some none
  | some (some (.str s)) => some (some s)
  | some (some (.obj _ _ _)) => none

/-- The `ON CONFLICT(transaction_id) DO UPDATE` row transform of
`handle_transaction_created` (lines 287-294). -/
def createdUpdateRow (d : EventData) (st : Option String) (now : String)
    (r : ShippoRecord) : ShippoRecord :=
  { r with
    tracking_number := d.tracking_number
    status := st
    metadata := d.metadata <|> r.metadata
    label_url := d.label_url <|> r.label_url
    tracking_url := d.tracking_url_provider <|> r.tracking_url
    eta := d.eta <|> r.eta
    updated_at := some now }

/-- The fresh row inserted by `handle_transaction_created` (lines 282-305).
`created_at` is bound explicitly (possibly `NULL`), so the column default is
not applied; `updated_at` falls back to its `CURRENT_TIMESTAMP` default. -/
def createdInsertRow (d : EventData) (st : Option String) (now : String)
    (rowid : Nat) (tid : String) : ShippoRecord :=
  { id := rowid
    transaction_id := tid
    tracking_number := d.tracking_number
    carrier := some (detect_carrier d.tracking_number)
    status := st
    status_details := none
    metadata := d.metadata
    label_url := d.label_url
    tracking_url := d.tracking_url_provider
    eta := d.eta
    to_name := none, to_city := none, to_state := none, to_zip := none
    to_country := none
    from_city := none, from_state := none, from_zip := none, from_country := none
    service_name := none, service_token := none
    tracking_history := none
    created_at := d.object_created
    updated_at := some now
    status_date := none
    delivered_at := none }

/-- `handle_transaction_created` (lines 274-306): idempotent upsert keyed by
`transaction_id`.  Fails (`none`) when `object_id` is absent (NOT NULL
violation) or `tracking_status` is a dict (bind error). -/
def handle_transaction_created (s : ShippoStore) (d : EventData) (now : String) :
    Option ShippoStore :=
  match bindTxnStatus d.tracking_status "PRE_TRANSIT" with
  | none => none
  | some st =>
    match d.object_id with
    | none => none
    | some tid =>
      if s.any (fun r => r.transaction_id == tid) then
        some (s.map (fun r =>
          if r.transaction_id == tid then createdUpdateRow d st now r else r))
      else
        some (s ++ [createdInsertRow d st now (s.length + 1) tid])

/-- The `UPDATE ... WHERE transaction_id = ?` row transform of
`handle_transaction_updated` (lines 317-329). -/
def txnUpdateRow (d : EventData) (st : Option String) (now : String)
    (r : ShippoRecord) : ShippoRecord :=
  { r with
    tracking_number := d.tracking_number <|> r.tracking_number
    status := st
    eta := d.eta <|> r.eta
    updated_at := some now }

/-- `handle_transaction_updated` (lines 309-335): update by transaction id;
if no row matched (`cursor.rowcount == 0`), fall back to
`handle_transaction_created` with the same payload. -/
def handle_transaction_updated (s : ShippoStore) (d : EventData) (now : String) :
    Option ShippoStore :=
  match bindTxnStatus d.tracking_status "UNKNOWN" with
  | none => none
  | some st =>
    if s.any (tidMatches d.object_id) then
      some (s.map (fun r =>
        if tidMatches d.object_id r then txnUpdateRow d st now r else r))
    else
      handle_transaction_created s d now

/-- `data.get(key, dflt)` for an object-valued key followed by `.get`
attribute access: absent key degrades to the default dict, an explicit JSON
null makes the later `.get` call raise (`None.get` → outer `none`). -/
def dictOrDefault {α : Type} (v : Option (Option α)) (dflt : α) : Option α :=
  match v with
  | none => some dflt
  | some none => none
  | some (some x) => some x

/-- The `status` computed at line 361: `tracking_status.get('status','UNKNOWN')`
when the value is a dict (including the `{}` default for an absent key), else
`str(tracking_status)` — so an explicit null becomes the text `"None"`. -/
def trackStatus : Option (Option StatusVal) → Option String
  | none => some "UNKNOWN"
  | some none => some "None"
  | some (some (.str s)) => some s
  | some (some (.obj st _ _)) =>
    match st with
    | none => some "UNKNOWN"
    | some v => v

/-- `tracking_status.get('status_details')` when a dict, else `None`. -/
def trackStatusDetails : Option (Option StatusVal) → Option String
  | some (some (.obj _ sd _)) => sd
  | none => none
  | some none => none
  | some (some (.str _)) => none

/-- `tracking_status.get('status_date')` when a dict, else `None`. -/
def trackStatusDate : Option (Option StatusVal) → Option String
  | some (some (.obj _ _ sd)) => sd
  | none => none
  | some none => none
  | some (some (.str _)) => none

/-- Lines 364-366: `delivered_at` is the nested `status_date` only when the
computed status equals `'DELIVERED'` (and the value is a dict), else `None`. -/
def trackDelivered (ts : Option (Option StatusVal)) : Option String :=
  if trackStatus ts == some "DELIVERED" then trackStatusDate ts else none

/-- Line 360: `(data.get('carrier') or detect_carrier(tracking_number)).upper()`. -/
def trackCarrier (d : EventData) : String :=
  pyUpper (if pyTruthy d.carrier then pyStr d.carrier
           else detect_carrier d.tracking_number)

/-- `json.dumps(data.get('tracking_history', []))` as the JSON value the
stored text decodes back to: absent key → `[]`, explicit null → JSON null
(the text `"null"`), an array → itself. -/
def trackHist : Option (Option (List String)) → HistVal
  | none => .jarr []
  | some none => .jnull
  | some (some l) => .jarr l

/-- First index satisfying a predicate (`SELECT id ... fetchone()` in rowid
order). -/
def findFirstIdx {α : Type} (p : α → Bool) : List α → Option Nat
  | [] => none
  | a :: as => if p a then some 0 else (findFirstIdx p as).map (· + 1)

/-- The existing-row lookup of `handle_track_updated` (lines 352-358): by
`transaction_id` when the payload's `transaction` is truthy, else by
`tracking_number` (a `NULL` bind matches nothing). -/
def trackLookup (s : ShippoStore) (d : EventData) : Option Nat :=
  if pyTruthy d.transaction then
    findFirstIdx (fun r => some r.transaction_id == d.transaction) s
  else
    findFirstIdx (fun r =>
      match d.tracking_number with
      | none => false
      | some tn => r.tracking_number == some tn) s

/-- The `UPDATE ... WHERE id = ?` row transform of `handle_track_updated`
(lines 369-413). -/
def trackUpdateRow (d : EventData) (adrTo adrFrom : Addr) (sv : ServiceLevel)
    (now : String) (r : ShippoRecord) : ShippoRecord :=
  { r with
    tracking_number := d.tracking_number <|> r.tracking_number
    carrier := some (trackCarrier d)
    status := trackStatus d.tracking_status
    status_details := trackStatusDetails d.tracking_status
    status_date := trackStatusDate d.tracking_status
    eta := d.eta <|> r.eta
    to_name := adrTo.name <|> r.to_name
    to_city := adrTo.city
    to_state := adrTo.state
    to_zip := adrTo.zip
    to_country := adrTo.country
    from_city := adrFrom.city
    from_state := adrFrom.state
    from_zip := adrFrom.zip
    from_country := adrFrom.country
    service_name := sv.name
    service_token := sv.token
    tracking_history := some (trackHist d.tracking_history)
    delivered_at := trackDelivered d.tracking_status <|> r.delivered_at
    updated_at := some now }

/-- The fresh row inserted by `handle_track_updated` (lines 416-443): note
`to_name`, `metadata`, `label_url`, `tracking_url` are not in the column
list, and `created_at`/`updated_at` fall back to their defaults. -/
def trackInsertRow (d : EventData) (adrTo adrFrom : Addr) (sv : ServiceLevel)
    (now : String) (rowid : Nat) (tid : String) : ShippoRecord :=
  { id := rowid
    transaction_id := tid
    tracking_number := d.tracking_number
    carrier := some (trackCarrier d)
    status := trackStatus d.tracking_status
    status_details := trackStatusDetails d.tracking_status
    status_date := trackStatusDate d.tracking_status
    metadata := none, label_url := none, tracking_url := none
    eta := d.eta
    to_name := none
    to_city := adrTo.city, to_state := adrTo.state, to_zip := adrTo.zip
    to_country := adrTo.country
    from_city := adrFrom.city, from_state := adrFrom.state
    from_zip := adrFrom.zip, from_country := adrFrom.country
    service_name := sv.name, service_token := sv.token
    tracking_history := some (trackHist d.tracking_history)
    created_at := some now
    updated_at := some now
    delivered_at := trackDelivered d.tracking_status }

/-- `handle_track_updated` (lines 338-445): full tracking event.  Updates the
existing row found by `trackLookup`, else inserts a new one whose
`transaction_id` is the payload's `transaction` or the synthesized
`track_<tracking_number>`.  Fails (`none`) when one of
`address_to`/`address_from`/`servicelevel` is an explicit JSON null (the
later `.get` raises) or when the insert violates the UNIQUE constraint on
`transaction_id`. -/
def handle_track_updated (s : ShippoStore) (d : EventData) (now : String) :
    Option ShippoStore :=
  match dictOrDefault d.address_to emptyAddr with
  | none => none
  | some adrTo =>
  match dictOrDefault d.address_from emptyAddr with
  | none => none
  | some adrFrom =>
  match dictOrDefault d.servicelevel emptyService with
  | none => none
  | some sv =>
    match trackLookup s d with
    | some i =>
      match s[i]? with
      | none => none
      | some hit =>
        some (s.map (fun r =>
          if r.id == hit.id then trackUpdateRow d adrTo adrFrom sv now r else r))
    | none =>
      let tid := if pyTruthy d.transaction then pyStr d.transaction
                 else "track_" ++ pyStr d.tracking_number
      if s.any (fun r => r.transaction_id == tid) then
        none
      else
        some (s ++ [trackInsertRow d adrTo adrFrom sv now (s.length + 1) tid])

/-- SQLite BINARY collation on text values: bytewise comparison, which for
the ASCII timestamps at hand coincides with lexicographic order on
characters. -/
def textLe (a b : List Char) : Bool :=
  match a, b with
  | [], _ => true
  | _ :: _, [] => false
  | x :: xs, y :: ys =>
    if x == y then textLe xs ys else decide (x.toNat < y.toNat)

/-- `col >= ?` on two text values. -/
def sqlTextGe (col bound : String) : Bool := textLe bound.toList col.toList

/-- SQLite `LIKE` character comparison: case-insensitive for ASCII. -/
def charEqCI (a b : Char) : Bool := a.toLower == b.toLower

/-- SQLite `LIKE` pattern matching (no ESCAPE clause): `%` matches any
sequence, `_` any single character, other characters match up to ASCII
case. -/
def likeMatch (ps cs : List Char) : Bool :=
  match ps, cs with
  | [], [] => true
  | [], _ :: _ => false
  | p :: ps', cs =>
    if p == '%' then
      likeMatch ps' cs
        || (match cs with
            | [] => false
            | _ :: cs' => likeMatch (p :: ps') cs')
    else
      match cs with
      | [] => false
      | c :: cs' => (p == '_' || charEqCI p c) && likeMatch ps' cs'
termination_by (cs.length, ps.length)

/-- `col LIKE ?`: a `NULL` column never matches. -/
def sqlLike (pat : String) (v : Option String) : Bool :=
  match v with
  | none => false
  | some s => likeMatch pat.toList s.toList

/-- The `WHERE` clause of the shipment-list query (lines 157-176):
time-window on `created_at`, `status != 'ERROR'` (three-valued: a `NULL`
status is excluded too), the optional exact status filter, and the optional
four-column `LIKE` search.  `cutoff` stands for the text
`datetime('now', '-<days> days')`; sqlite compares text columns bytewise. -/
def listPred (status? : Option String) (search : String) (cutoff : String)
    (r : ShippoRecord) : Bool :=
  (match r.created_at with
   | none => false
   | some c => sqlTextGe c cutoff)
  && (match r.status with
      | none => false
      | some st => !(st == "ERROR"))
  && (if pyTruthy status? && !(pyUpper (pyStr status?) == "ALL") then
        r.status == some (pyUpper (pyStr status?))
      else true)
  && (if search == "" then true
      else
        let pat := "%" ++ search ++ "%"
        sqlLike pat r.tracking_number || sqlLike pat r.metadata
          || sqlLike pat r.to_city || sqlLike pat r.carrier)

/-- Stable insertion of one element into a list sorted by `le`. -/
def insertSorted {α : Type} (le : α → α → Bool) (a : α) : List α → List α
  | [] => [a]
  | b :: bs => if le a b then a :: b :: bs else b :: insertSorted le a bs

/-- Stable insertion sort, modelling `ORDER BY`. -/
def sortByKey {α : Type} (le : α → α → Bool) : List α → List α
  | [] => []
  | a :: as => insertSorted le a (sortByKey le as)

/-- `ORDER BY created_at DESC`: newest creation text first. -/
def createdDescLe (r₁ r₂ : ShippoRecord) : Bool :=
  textLe (r₂.created_at.getD "").toList (r₁.created_at.getD "").toList

/-- The decoded `tracking_history` the list endpoint returns (lines 186-194):
a `NULL` column is falsy → `[]`; the text `"null"` is truthy and decodes to
Python `None`; array text decodes to the array. -/
inductive DecodedHist where
  | pyNone
  | arr (entries : List String)
deriving DecidableEq

def decodeHist : Option HistVal → DecodedHist
  | none => .arr []
  | some .jnull => .pyNone
  | some (.jarr l) => .arr l

/-- `get_shippo_shipments` (lines 145-207): filtered, newest-first, capped
listing with history decoding.  `lim` models `LIMIT ?`: a negative limit
means no cap in sqlite. -/
def get_shippo_shipments (s : ShippoStore) (status? : Option String)
    (search : String) (cutoff : String) (lim : Int) :
    List (ShippoRecord × DecodedHist) :=
  let rows := s.filter (listPred status? search cutoff)
  let sorted := sortByKey createdDescLe rows
  let limited := if lim < 0 then sorted else sorted.take lim.toNat
  limited.map (fun r => (r, decodeHist r.tracking_history))

/-- The outcome of `request.get_json()` at line 118: it raised (unparseable
body or unsupported media type — a `BadRequest`/`UnsupportedMediaType`
exception thrown inside the `try`), returned `None` (no usable body), or
returned a parsed JSON value with its Python truthiness, `event` and `data`
members (`data` double-option as usual: absent key, explicit null, object). -/
inductive GetJsonOutcome where
  | raises
  | retNone
  | retVal (truthy : Bool) (event : Option String) (payloadData : Option (Option EventData))
deriving DecidableEq

/-- The webhook's JSON response body: `{'received': True}`,
`{'error': <message>}`, or the 400 `{'error': 'No payload'}`. -/
inductive WebhookResp where
  | received
  | errorResp
  | noPayload
deriving DecidableEq

/-- `payload.get('data', {})` followed by the handlers' `.get` calls: absent
key degrades to `{}`; an explicit null makes the first `data.get(...)` inside
any handler raise. -/
def dataOf : Option (Option EventData) → Option EventData
  | none => some emptyEventData
  | some none => none
  | some (some d) => some d

/-- `shippo_webhook` (lines 114-143): dispatch by event kind; any exception
inside the `try` is answered `200 {'error': ...}` to prevent retries; a falsy
parsed payload is answered `400 {'error': 'No payload'}`.  Returns the store
after the call together with the HTTP status and body. -/
def shippo_webhook (req : GetJsonOutcome) (s : ShippoStore) (now : String) :
    ShippoStore × Nat × WebhookResp :=
  match req with
  | .raises => (s, 200, .errorResp)
  | .retNone => (s, 400, .noPayload)
  | .retVal false _ _ => (s, 400, .noPayload)
  | .retVal true event payloadData =>
      match dataOf payloadData with
      | none =>
        match event with
        | some "transaction_created" => (s, 200, .errorResp)
        | some "transaction_updated" => (s, 200, .errorResp)
        | some "track_updated" => (s, 200, .errorResp)
        | _ => (s, 200, .received)
      | some d =>
        match event with
        | some "transaction_created" =>
          match handle_transaction_created s d now with
          | some s' => (s', 200, .received)
          | none => (s, 200, .errorResp)
        | some "transaction_updated" =>
          match handle_transaction_updated s d now with
          | some s' => (s', 200, .received)
          | none => (s, 200, .errorResp)
        | some "track_updated" =>
          match handle_track_updated s d now with
          | some s' => (s', 200, .received)
          | none => (s, 200, .errorResp)
        | _ => (s, 200, .received)

/-! ### General lemmas about the embedding -/

theorem orElse_absorb {α : Type} (a b : Option α) :
    (a <|> (a <|> b)) = (a <|> b) := by
  cases a <;> rfl

theorem orElse_self {α : Type} (a : Option α) : (a <|> a) = a := by
  cases a <;> rfl

theorem orElse_none {α : Type} (a : Option α) : (a <|> none) = a := by
  cases a <;> rfl

theorem findFirstIdx_get {α : Type} (p : α → Bool) :
    ∀ (l : List α) (i : Nat), findFirstIdx p l = some i →
      ∃ a, l[i]? = some a ∧ p a = true := by
  intro l
  induction l with
  | nil => intro i h; simp [findFirstIdx] at h
  | cons a as ih =>
    intro i h
    by_cases ha : p a
    · simp [findFirstIdx, ha] at h
      subst h
      exact ⟨a, by simp, ha⟩
    · simp [findFirstIdx, ha] at h
      obtain ⟨j, hj, rfl⟩ := h
      obtain ⟨b, hb, hpb⟩ := ih j hj
      exact ⟨b, by simpa using hb, hpb⟩

theorem mem_insertSorted {α : Type} (le : α → α → Bool) (a x : α) :
    ∀ (l : List α), x ∈ insertSorted le a l → x = a ∨ x ∈ l := by
  intro l
  induction l with
  | nil => intro h; simpa [insertSorted] using h
  | cons b bs ih =>
    intro h
    by_cases hle : le a b
    · rw [insertSorted, if_pos hle] at h
      rcases List.mem_cons.mp h with h | h
      · exact Or.inl h
      · exact Or.inr h
    · rw [insertSorted, if_neg hle] at h
      rcases List.mem_cons.mp h with h | h
      · exact Or.inr (by simp [h])
      · rcases ih h with h' | h'
        · exact Or.inl h'
        · exact Or.inr (by simp [h'])

theorem mem_sortByKey {α : Type} (le : α → α → Bool) (x : α) :
    ∀ (l : List α), x ∈ sortByKey le l → x ∈ l := by
  intro l
  induction l with
  | nil => intro h; simp [sortByKey] at h
  | cons a as ih =>
    intro h
    rcases mem_insertSorted le a x _ h with h' | h'
    · simp [h']
    · exact List.mem_cons_of_mem _ (ih h')

/-! ### Sample data used by concrete witnesses -/

/-- A well-formed sample row (as created by the handlers). -/
def sampleRecord : ShippoRecord :=
  { id := 1
    transaction_id := "tx1"
    tracking_number := some "TN1"
    carrier := some "UPS"
    status := some "TRANSIT"
    status_details := none
    metadata := some "order 42"
    label_url := some "http-label"
    tracking_url := some "http-track"
    eta := none
    to_name := none, to_city := none, to_state := none, to_zip := none
    to_country := none
    from_city := none, from_state := none, from_zip := none, from_country := none
    service_name := none, service_token := none
    tracking_history := none
    created_at := some "2025-01-15 10:00:00"
    updated_at := some "2025-01-15 10:00:00"
    status_date := none
    delivered_at := none }

/-! ### C4: the carrier classifier -/

/-- C4 counterexample: the claim states
`detect_carrier("9400111899223344556") = USPS`, but the all-digit length-≥12
FEDEX rule precedes the USPS rule, so the code classifies this 19-digit
number as FEDEX. -/
theorem detect_carrier_usps_example_false :
    detect_carrier (some "9400111899223344556") = "FEDEX"
    ∧ ("FEDEX" : String) ≠ "USPS" :=
  ⟨by decide, by decide⟩

/-- C4 (amended): `detect_carrier` applies the six classification rules of
the spec strictly in the stated order with first match winning (it agrees
everywhere with `specClassify`, the rule list transcribed from the spec);
`detect_carrier("1Z999AA10123456784") = UPS`,
`detect_carrier("123456789012") = FEDEX`,
`detect_carrier("9400111899223344556") = FEDEX` (the ≥12-digit FEDEX rule
fires before the USPS rule), `detect_carrier("1234567890") = DHL`,
empty/absent input yields UNKNOWN, and a string matching no rule yields
CARRIER. -/
theorem detect_carrier_rule_order :
    (∀ tn, detect_carrier tn = specClassify tn)
    ∧ detect_carrier (some "1Z999AA10123456784") = "UPS"
    ∧ detect_carrier (some "123456789012") = "FEDEX"
    ∧ detect_carrier (some "9400111899223344556") = "FEDEX"
    ∧ detect_carrier (some "1234567890") = "DHL"
    ∧ detect_carrier none = "UNKNOWN"
    ∧ detect_carrier (some "") = "UNKNOWN"
    ∧ detect_carrier (some "SHIPPO-X1") = "CARRIER" := by
  refine ⟨fun tn => ?_, by decide, by decide, by decide, by decide, rfl,
    by decide, by decide⟩
  cases tn <;> rfl

/-! ### C8: the shipment-list query never returns an ERROR row -/

/-- C8: for every store state and every combination of status, search,
time-window and limit parameters, no row returned by `get_shippo_shipments`
has status `'ERROR'` (the `status != 'ERROR'` conjunct of the WHERE clause
survives sorting and the limit). -/
theorem get_shippo_shipments_no_error (s : ShippoStore) (status? : Option String)
    (search cutoff : String) (lim : Int) (r : ShippoRecord) (dh : DecodedHist)
    (hmem : (r, dh) ∈ get_shippo_shipments s status? search cutoff lim) :
    r.status ≠ some "ERROR" := by
  simp only [get_shippo_shipments] at hmem
  obtain ⟨r', hmem', hpair⟩ := List.mem_map.mp hmem
  have hr : r' = r := congrArg Prod.fst hpair
  have hsorted : r' ∈ sortByKey createdDescLe
      (List.filter (listPred status? search cutoff) s) := by
    by_cases hl : lim < 0
    · simpa [hl] using hmem'
    · rw [if_neg hl] at hmem'
      exact List.take_subset _ _ hmem'
  have hrow := mem_sortByKey _ _ _ hsorted
  have hp := (List.mem_filter.mp hrow).2
  rw [← hr]
  intro hcon
  simp [listPred, hcon] at hp

/-- Concrete witness for C8: a sample store and parameters on which the query
does return a row, and that row's status is not `'ERROR'`. -/
theorem get_shippo_shipments_no_error_witness :
    (sampleRecord, DecodedHist.arr []) ∈
      get_shippo_shipments [sampleRecord] none "" "2024-01-01" 200
    ∧ sampleRecord.status ≠ some "ERROR" :=
  ⟨by decide, get_shippo_shipments_no_error [sampleRecord] none "" "2024-01-01"
    200 sampleRecord (DecodedHist.arr []) (by decide)⟩

/-! ### C9: webhook endpoint status codes -/

/-- Whether the outcome of `request.get_json()` is a returned falsy value
(`None`, `null`, `{}`, ...), the condition under which line 120's
`400 {'error': 'No payload'}` fires. -/
def reqFalsy : GetJsonOutcome → Bool
  | .raises => false
  | .retNone => true
  | .retVal truthy _ _ => !truthy

/-- C9 counterexample: on an unparseable request body, `request.get_json()`
raises inside the `try` block, so the endpoint answers HTTP 200 (with an
error body) — not 400 as the claim states. -/
theorem shippo_webhook_unparseable_cex :
    (shippo_webhook .raises [] "now").2.1 = 200 ∧ (200 : Nat) ≠ 400 :=
  ⟨rfl, by decide⟩

/-- C9 (amended): the endpoint responds 400 exactly when `get_json` returns
a falsy payload (absent body parsed as `None`, or a JSON `null`/`{}`); a
body that fails to parse raises inside the `try` and is answered 200 with an
error body; otherwise it always responds 200 — `{'received': True}` on
success and `{'error': ...}` on internal reconciliation failure — never
another 4xx/5xx. -/
theorem shippo_webhook_status (req : GetJsonOutcome) (s : ShippoStore) (now : String) :
    ((shippo_webhook req s now).2.1 = if reqFalsy req then 400 else 200)
    ∧ (reqFalsy req = true → (shippo_webhook req s now).2.2 = WebhookResp.noPayload)
    ∧ (reqFalsy req = false →
        (shippo_webhook req s now).2.2 = WebhookResp.received
        ∨ (shippo_webhook req s now).2.2 = WebhookResp.errorResp) := by
  cases req with
  | raises => exact ⟨rfl, ⟨fun h => absurd h (by decide), fun _ => Or.inr rfl⟩⟩
  | retNone => exact ⟨rfl, ⟨fun _ => rfl, fun h => absurd h (by decide)⟩⟩
  | retVal truthy event pd =>
    cases truthy with
    | false => exact ⟨rfl, ⟨fun _ => rfl, fun h => by simp [reqFalsy] at h⟩⟩
    | true =>
      refine ⟨?_, ⟨fun h => by simp [reqFalsy] at h, fun _ => ?_⟩⟩
      · show (shippo_webhook (.retVal true event pd) s now).2.1 = 200
        simp only [shippo_webhook]
        (repeat' split) <;> rfl
      · simp only [shippo_webhook]
        (repeat' split) <;> simp

/-- Concrete witness for C9: a `None` body is answered 400 `{'error': 'No
payload'}`; instantiates the two hypothesis-bearing conjuncts. -/
theorem shippo_webhook_status_witness :
    reqFalsy .retNone = true
    ∧ (shippo_webhook .retNone [] "t").2.2 = WebhookResp.noPayload :=
  ⟨by decide, (shippo_webhook_status .retNone [] "t").2.1 (by decide)⟩

/-! ### Row-transform framing facts -/

theorem createdUpdateRow_transaction_id (d : EventData) (st : Option String)
    (now : String) (r : ShippoRecord) :
    (createdUpdateRow d st now r).transaction_id = r.transaction_id := rfl

theorem txnUpdateRow_transaction_id (d : EventData) (st : Option String)
    (now : String) (r : ShippoRecord) :
    (txnUpdateRow d st now r).transaction_id = r.transaction_id := rfl

theorem tidMatches_preserved (q : Option String) (f : ShippoRecord → ShippoRecord)
    (hf : ∀ r, (f r).transaction_id = r.transaction_id) (r : ShippoRecord) :
    tidMatches q (f r) = tidMatches q r := by
  cases q <;> simp [tidMatches, hf]

theorem any_tidMatches_map (s : ShippoStore) (q : Option String)
    (f : ShippoRecord → ShippoRecord)
    (hf : ∀ r, (f r).transaction_id = r.transaction_id) :
    (s.map f).any (tidMatches q) = s.any (tidMatches q) := by
  induction s with
  | nil => rfl
  | cons a as ih =>
    simp only [List.map_cons, List.any_cons, ih]
    rw [tidMatches_preserved q f hf]

/-! ### C3: after `handle_transaction_updated` a record exists -/

/-- If `handle_transaction_created` returns normally, the store has a row
keyed by the payload's transaction id. -/
theorem handle_transaction_created_record_exists (s : ShippoStore)
    (d : EventData) (now : String) (s' : ShippoStore)
    (h : handle_transaction_created s d now = some s') :
    s'.any (tidMatches d.object_id) = true := by
  unfold handle_transaction_created at h
  cases hts : bindTxnStatus d.tracking_status "PRE_TRANSIT" with
  | none => rw [hts] at h; cases h
  | some st =>
    rw [hts] at h
    cases hid : d.object_id with
    | none => rw [hid] at h; cases h
    | some tid =>
      rw [hid] at h
      dsimp only at h
      by_cases hany : s.any (fun r => r.transaction_id == tid) = true
      · rw [if_pos hany] at h
        obtain rfl : _ = s' := Option.some.inj h
        have : (s.map fun r =>
            if r.transaction_id == tid then createdUpdateRow d st now r else r).any
              (tidMatches (some tid)) = s.any (tidMatches (some tid)) := by
          refine any_tidMatches_map s _ _ (fun r => ?_)
          by_cases hr : r.transaction_id == tid <;>
            simp [hr, createdUpdateRow_transaction_id]
        rw [this]
        simpa [tidMatches] using hany
      · rw [if_neg hany] at h
        obtain rfl : _ = s' := Option.some.inj h
        simp [List.any_append, tidMatches, createdInsertRow]

/-- C3: whenever `handle_transaction_updated` returns normally — through the
direct UPDATE or through its fallback to `handle_transaction_created` — the
resulting store has a record keyed by the payload's transaction id. -/
theorem handle_transaction_updated_record_exists (s : ShippoStore)
    (d : EventData) (now : String) (s' : ShippoStore)
    (h : handle_transaction_updated s d now = some s') :
    s'.any (tidMatches d.object_id) = true := by
  unfold handle_transaction_updated at h
  cases hts : bindTxnStatus d.tracking_status "UNKNOWN" with
  | none => rw [hts] at h; cases h
  | some st =>
    rw [hts] at h
    dsimp only at h
    by_cases hany : s.any (tidMatches d.object_id) = true
    · rw [if_pos hany] at h
      obtain rfl : _ = s' := Option.some.inj h
      have : (s.map fun r =>
          if tidMatches d.object_id r then txnUpdateRow d st now r else r).any
            (tidMatches d.object_id) = s.any (tidMatches d.object_id) := by
        refine any_tidMatches_map s _ _ (fun r => ?_)
        by_cases hr : tidMatches d.object_id r <;>
          simp [hr, txnUpdateRow_transaction_id]
      rw [this, hany]
    · rw [if_neg hany] at h
      exact handle_transaction_created_record_exists s d now s' h

/-- Concrete witness for C3: an update arriving before any create falls back
to the insert, after which a row keyed by the transaction id exists. -/
theorem handle_transaction_updated_record_exists_witness :
    (handle_transaction_updated []
        { emptyEventData with object_id := some "tx9" } "t0"
      = some [createdInsertRow { emptyEventData with object_id := some "tx9" }
          (some "PRE_TRANSIT") "t0" 1 "tx9"])
    ∧ ([createdInsertRow { emptyEventData with object_id := some "tx9" }
          (some "PRE_TRANSIT") "t0" 1 "tx9"]).any
        (tidMatches ({ emptyEventData with object_id := some "tx9" } : EventData).object_id)
        = true :=
  have hh : handle_transaction_updated []
      { emptyEventData with object_id := some "tx9" } "t0"
      = some [createdInsertRow { emptyEventData with object_id := some "tx9" }
          (some "PRE_TRANSIT") "t0" 1 "tx9"] := by decide
  ⟨hh, handle_transaction_updated_record_exists _ _ _ _ hh⟩

/-! ### C5: `handle_transaction_created` is an idempotent upsert -/

/-- Unfolding of `handle_transaction_created` once the status bind and the
transaction id are fixed. -/
theorem handle_transaction_created_unfold (s : ShippoStore) (d : EventData)
    (t : String) (st : Option String) (tid : String)
    (hts : bindTxnStatus d.tracking_status "PRE_TRANSIT" = some st)
    (hid : d.object_id = some tid) :
    handle_transaction_created s d t =
      if s.any (fun r => r.transaction_id == tid) then
        some (s.map (fun r =>
          if r.transaction_id == tid then createdUpdateRow d st t r else r))
      else some (s ++ [createdInsertRow d st t (s.length + 1) tid]) := by
  unfold handle_transaction_created
  rw [hts, hid]

/-- Replaying the conflict update over its own output changes nothing but the
refresh timestamp. -/
theorem createdUpdateRow_comp (d : EventData) (st : Option String)
    (t₁ t₂ : String) (r : ShippoRecord) :
    createdUpdateRow d st t₂ (createdUpdateRow d st t₁ r)
      = createdUpdateRow d st t₂ r := by
  simp [createdUpdateRow, orElse_absorb]

/-- The conflict update applied to the row just inserted from the same
payload reproduces that row (with the refresh timestamp). -/
theorem createdUpdateRow_insertRow (d : EventData) (st : Option String)
    (t₁ t₂ : String) (n : Nat) (tid : String) :
    createdUpdateRow d st t₂ (createdInsertRow d st t₁ n tid)
      = createdInsertRow d st t₂ n tid := by
  simp [createdUpdateRow, createdInsertRow, orElse_self]

/-- A conditional row update keyed on a transaction id that no row carries is
the identity. -/
theorem map_tid_update_id (s : ShippoStore) (tid : String)
    (upd : ShippoRecord → ShippoRecord)
    (hany : s.any (fun r => r.transaction_id == tid) = false) :
    s.map (fun r => if r.transaction_id == tid then upd r else r) = s := by
  induction s with
  | nil => rfl
  | cons a as ih =>
    rw [List.any_cons, Bool.or_eq_false_iff] at hany
    rw [List.map_cons, if_neg (by simp [hany.1]), ih hany.2]

/-- Applying the same `transaction_created` payload a second time (at any
later timestamp) collapses to a single application at the second
timestamp. -/
theorem handle_transaction_created_absorb (s : ShippoStore) (d : EventData)
    (t₁ t₂ : String) :
    (handle_transaction_created s d t₁).bind
        (fun s' => handle_transaction_created s' d t₂)
      = handle_transaction_created s d t₂ := by
  cases hts : bindTxnStatus d.tracking_status "PRE_TRANSIT" with
  | none => simp [handle_transaction_created, hts]
  | some st =>
    cases hid : d.object_id with
    | none => simp [handle_transaction_created, hts, hid]
    | some tid =>
      rw [handle_transaction_created_unfold s d t₁ st tid hts hid,
        handle_transaction_created_unfold s d t₂ st tid hts hid]
      by_cases hany : s.any (fun r => r.transaction_id == tid) = true
      · rw [if_pos hany, if_pos hany, Option.some_bind]
        have hpre : ∀ r : ShippoRecord,
            ((if r.transaction_id == tid then createdUpdateRow d st t₁ r else r) :
              ShippoRecord).transaction_id = r.transaction_id := by
          intro r
          by_cases hr : r.transaction_id == tid <;>
            simp [hr, createdUpdateRow_transaction_id]
        have hany' : (s.map (fun r =>
            if r.transaction_id == tid then createdUpdateRow d st t₁ r else r)).any
              (fun r => r.transaction_id == tid) = true :=
          (any_tidMatches_map s (some tid) _ hpre).trans hany
        rw [handle_transaction_created_unfold _ d t₂ st tid hts hid, if_pos hany',
          List.map_map]
        refine congrArg some (List.map_congr_left (fun r _ => ?_))
        by_cases hr : r.transaction_id == tid
        · simp only [Function.comp, if_pos hr]
          rw [if_pos ((createdUpdateRow_transaction_id d st t₁ r).symm ▸ hr)]
          exact createdUpdateRow_comp d st t₁ t₂ r
        · simp only [Function.comp, if_neg hr, if_neg hr]
      · rw [if_neg hany, if_neg hany, Option.some_bind]
        have hins : (s ++ [createdInsertRow d st t₁ (s.length + 1) tid]).any
            (fun r => r.transaction_id == tid) = true := by
          simp [List.any_append, createdInsertRow]
        rw [handle_transaction_created_unfold _ d t₂ st tid hts hid, if_pos hins,
          List.map_append]
        have hid' : s.map (fun r =>
            if r.transaction_id == tid then createdUpdateRow d st t₂ r else r) = s :=
          map_tid_update_id s tid _ (Bool.eq_false_iff.mpr hany ▸ rfl)
        rw [hid']
        refine congrArg some (congrArg (s ++ ·) ?_)
        rw [List.map_cons, List.map_nil,
          if_pos (by simp [createdInsertRow]),
          createdUpdateRow_insertRow]

/-- A sequence of `transaction_created` calls threaded through the store,
each with its own `CURRENT_TIMESTAMP`. -/
def applyCreatedSeq (os : Option ShippoStore) (ps : List (EventData × String)) :
    Option ShippoStore :=
  ps.foldl (fun acc pt =>
    acc.bind (fun s => handle_transaction_created s pt.1 pt.2)) os

theorem applyCreatedSeq_none (ps : List (EventData × String)) :
    applyCreatedSeq none ps = none := by
  induction ps with
  | nil => rfl
  | cons pt rest ih => simpa [applyCreatedSeq] using ih

/-- C5: `handle_transaction_created` is idempotent — applying the identical
payload N ≥ 1 times (at timestamps `ts ++ [t]`) leaves exactly the record
contents of a single application (at the final timestamp `t`), for every
payload and every starting store. -/
theorem handle_transaction_created_idempotent (s : ShippoStore) (d : EventData)
    (ts : List String) (t : String) :
    applyCreatedSeq (some s) ((ts ++ [t]).map (fun tm => (d, tm)))
      = handle_transaction_created s d t := by
  induction ts generalizing s with
  | nil => simp [applyCreatedSeq]
  | cons tm rest ih =>
    have hL : applyCreatedSeq (some s) (((tm :: rest) ++ [t]).map (fun tm => (d, tm)))
        = applyCreatedSeq (handle_transaction_created s d tm)
            ((rest ++ [t]).map (fun tm => (d, tm))) := by
      simp [applyCreatedSeq]
    have habs := handle_transaction_created_absorb s d tm t
    cases hstep : handle_transaction_created s d tm with
    | none =>
      rw [hstep, Option.none_bind] at habs
      rw [hL, hstep, applyCreatedSeq_none]
      exact habs
    | some s₁ =>
      rw [hstep, Option.some_bind] at habs
      rw [hL, hstep, ih s₁]
      exact habs

/-! ### C1: coalesce across a sequence of `transaction_created` events -/

theorem find?_map_of_preserve {q : ShippoRecord → Bool}
    {f : ShippoRecord → ShippoRecord} (hf : ∀ r, q (f r) = q r) :
    ∀ l : List ShippoRecord, (l.map f).find? q = (l.find? q).map f := by
  intro l
  induction l with
  | nil => rfl
  | cons a as ih =>
    by_cases ha : q a = true
    · rw [List.map_cons, List.find?_cons_of_pos _ (by rw [hf]; exact ha),
        List.find?_cons_of_pos _ ha]
      rfl
    · rw [List.map_cons, List.find?_cons_of_neg _ (by rw [hf]; simpa using ha),
        List.find?_cons_of_neg _ (by simpa using ha), ih]

theorem find?_append_left_none {α : Type} (q : α → Bool) (l₁ l₂ : List α)
    (h : l₁.find? q = none) : (l₁ ++ l₂).find? q = l₂.find? q := by
  induction l₁ with
  | nil => rfl
  | cons a as ih =>
    rw [List.find?_eq_none] at h
    rw [List.cons_append,
      List.find?_cons_of_neg _ (h a (List.mem_cons_self a as)),
      ih (List.find?_eq_none.mpr (fun x hx => h x (List.mem_cons_of_mem a hx)))]

/-- The last non-null value in a sequence of nullable values (the left fold
of `COALESCE(new, old)`); `none` when every value is null. -/
def lastNonNull (l : List (Option String)) : Option String :=
  l.foldl (fun acc v => v <|> acc) none

theorem lastNonNull_foldl (l : List (Option String)) :
    ∀ acc : Option String,
      l.foldl (fun acc v => v <|> acc) acc = ((l.reverse.findSome? id) <|> acc) := by
  induction l with
  | nil => intro acc; rfl
  | cons v vs ih =>
    intro acc
    rw [List.foldl_cons, ih (v <|> acc), List.reverse_cons, List.findSome?_append]
    cases vs.reverse.findSome? id <;> cases v <;> rfl

/-- `lastNonNull` really is the last non-null element: the first non-null
value of the reversed sequence. -/
theorem lastNonNull_eq_reverse_findSome (l : List (Option String)) :
    lastNonNull l = l.reverse.findSome? id := by
  rw [lastNonNull, lastNonNull_foldl l none]
  cases l.reverse.findSome? id <;> rfl

/-- One `transaction_created` step on a store already holding the row:
the four coalesce-preserve columns become `COALESCE(incoming, stored)`. -/
theorem created_step_existing (s : ShippoStore) (d : EventData) (t : String)
    (tid : String) (r : ShippoRecord) (s' : ShippoStore)
    (hid : d.object_id = some tid)
    (hfind : s.find? (fun rr => rr.transaction_id == tid) = some r)
    (hstep : handle_transaction_created s d t = some s') :
    ∃ r', s'.find? (fun rr => rr.transaction_id == tid) = some r'
      ∧ r'.metadata = (d.metadata <|> r.metadata)
      ∧ r'.label_url = (d.label_url <|> r.label_url)
      ∧ r'.tracking_url = (d.tracking_url_provider <|> r.tracking_url)
      ∧ r'.eta = (d.eta <|> r.eta) := by
  cases hts : bindTxnStatus d.tracking_status "PRE_TRANSIT" with
  | none => simp [handle_transaction_created, hts] at hstep
  | some st =>
    have hpa : (fun rr : ShippoRecord => rr.transaction_id == tid) r = true :=
      @List.find?_some ShippoRecord (fun rr => rr.transaction_id == tid) r s hfind
    have hany : s.any (fun rr => rr.transaction_id == tid) = true :=
      List.any_eq_true.mpr ⟨r, List.mem_of_find?_eq_some hfind, hpa⟩
    rw [handle_transaction_created_unfold s d t st tid hts hid,
      if_pos hany] at hstep
    obtain rfl : _ = s' := Option.some.inj hstep
    have hpres : ∀ rr : ShippoRecord,
        (((if rr.transaction_id == tid then createdUpdateRow d st t rr else rr) :
            ShippoRecord).transaction_id == tid) = (rr.transaction_id == tid) := by
      intro rr
      by_cases hrr : rr.transaction_id == tid <;>
        simp [hrr, createdUpdateRow_transaction_id]
    rw [find?_map_of_preserve hpres s, hfind]
    have hqr : (r.transaction_id == tid) = true := hpa
    refine ⟨createdUpdateRow d st t r, ?_, rfl, rfl, rfl, rfl⟩
    show some (if (r.transaction_id == tid) = true then createdUpdateRow d st t r
      else r) = some (createdUpdateRow d st t r)
    rw [if_pos hqr]

/-- One `transaction_created` step on a store with no matching row: the four
coalesce-preserve columns take the incoming values. -/
theorem created_step_fresh (s : ShippoStore) (d : EventData) (t : String)
    (tid : String) (s' : ShippoStore)
    (hid : d.object_id = some tid)
    (hany : s.any (fun rr => rr.transaction_id == tid) = false)
    (hstep : handle_transaction_created s d t = some s') :
    ∃ r', s'.find? (fun rr => rr.transaction_id == tid) = some r'
      ∧ r'.metadata = d.metadata
      ∧ r'.label_url = d.label_url
      ∧ r'.tracking_url = d.tracking_url_provider
      ∧ r'.eta = d.eta := by
  cases hts : bindTxnStatus d.tracking_status "PRE_TRANSIT" with
  | none => simp [handle_transaction_created, hts] at hstep
  | some st =>
    rw [handle_transaction_created_unfold s d t st tid hts hid,
      if_neg (by simp [hany])] at hstep
    obtain rfl : _ = s' := Option.some.inj hstep
    have hnone : s.find? (fun rr => rr.transaction_id == tid) = none := by
      rw [List.find?_eq_none]
      intro x hx hpx
      have hT : s.any (fun rr => rr.transaction_id == tid) = true :=
        List.any_eq_true.mpr ⟨x, hx, hpx⟩
      simp [hany] at hT
    rw [find?_append_left_none _ _ _ hnone]
    exact ⟨createdInsertRow d st t (s.length + 1) tid,
      by simp [List.find?, createdInsertRow], rfl, rfl, rfl, rfl⟩

/-- Folding a sequence of `transaction_created` events over a store that
already holds the row: each coalesce-preserve column is the left fold of
`COALESCE(incoming, stored)` over the sequence. -/
theorem createdSeq_coalesce_invariant (tid : String) :
    ∀ (ps : List (EventData × String)) (s : ShippoStore) (r : ShippoRecord)
      (s' : ShippoStore),
      (∀ pt ∈ ps, (pt : EventData × String).1.object_id = some tid) →
      s.find? (fun rr => rr.transaction_id == tid) = some r →
      applyCreatedSeq (some s) ps = some s' →
      ∃ r', s'.find? (fun rr => rr.transaction_id == tid) = some r'
        ∧ r'.metadata =
            (ps.map (·.1)).foldl (fun a p => p.metadata <|> a) r.metadata
        ∧ r'.label_url =
            (ps.map (·.1)).foldl (fun a p => p.label_url <|> a) r.label_url
        ∧ r'.tracking_url =
            (ps.map (·.1)).foldl (fun a p => p.tracking_url_provider <|> a) r.tracking_url
        ∧ r'.eta =
            (ps.map (·.1)).foldl (fun a p => p.eta <|> a) r.eta := by
  intro ps
  induction ps with
  | nil =>
    intro s r s' _ hfind happ
    obtain rfl : _ = s' := Option.some.inj (by simpa [applyCreatedSeq] using happ)
    exact ⟨r, hfind, rfl, rfl, rfl, rfl⟩
  | cons pt rest ih =>
    intro s r s' hall hfind happ
    have hL : applyCreatedSeq (some s) (pt :: rest)
        = applyCreatedSeq (handle_transaction_created s pt.1 pt.2) rest := by
      simp [applyCreatedSeq]
    rw [hL] at happ
    cases hm : handle_transaction_created s pt.1 pt.2 with
    | none => rw [hm, applyCreatedSeq_none] at happ; cases happ
    | some s₁ =>
      rw [hm] at happ
      obtain ⟨r₁, hfind₁, hm₁, hl₁, ht₁, he₁⟩ :=
        created_step_existing s pt.1 pt.2 tid r s₁
          (hall pt (List.mem_cons_self pt rest)) hfind hm
      obtain ⟨r', hf', hm', hl', ht', he'⟩ :=
        ih s₁ r₁ s' (fun q hq => hall q (List.mem_cons_of_mem pt hq)) hfind₁ happ
      refine ⟨r', hf', ?_, ?_, ?_, ?_⟩ <;>
        simp only [List.map_cons, List.foldl_cons] <;>
        [rw [hm', hm₁]; rw [hl', hl₁]; rw [ht', ht₁]; rw [he', he₁]]

/-- C1 (amended): across a sequence of `transaction_created` events with the
same transaction id (starting from a store with no row for it), the
resulting record's `metadata`/`label_url`/`tracking_url`/`eta` each equal the
**last** non-null value supplied for that field — an incoming null leaves the
stored value untouched, an incoming non-null overwrites
(`COALESCE(excluded.col, col)`). -/
theorem handle_transaction_created_coalesce_last (tid : String)
    (ps : List (EventData × String)) (s : ShippoStore) (s' : ShippoStore)
    (hall : ∀ pt ∈ ps, (pt : EventData × String).1.object_id = some tid)
    (hfresh : s.any (fun rr => rr.transaction_id == tid) = false)
    (hne : ps ≠ [])
    (happ : applyCreatedSeq (some s) ps = some s') :
    ∃ r', s'.find? (fun rr => rr.transaction_id == tid) = some r'
      ∧ r'.metadata = lastNonNull (ps.map (fun pt => pt.1.metadata))
      ∧ r'.label_url = lastNonNull (ps.map (fun pt => pt.1.label_url))
      ∧ r'.tracking_url = lastNonNull (ps.map (fun pt => pt.1.tracking_url_provider))
      ∧ r'.eta = lastNonNull (ps.map (fun pt => pt.1.eta)) := by
  cases ps with
  | nil => exact absurd rfl hne
  | cons p₀ rest =>
    have hL : applyCreatedSeq (some s) (p₀ :: rest)
        = applyCreatedSeq (handle_transaction_created s p₀.1 p₀.2) rest := by
      simp [applyCreatedSeq]
    rw [hL] at happ
    cases hm : handle_transaction_created s p₀.1 p₀.2 with
    | none => rw [hm, applyCreatedSeq_none] at happ; cases happ
    | some s₁ =>
      rw [hm] at happ
      obtain ⟨r₁, hfind₁, hm₁, hl₁, ht₁, he₁⟩ :=
        created_step_fresh s p₀.1 p₀.2 tid s₁
          (hall p₀ (List.mem_cons_self p₀ rest)) hfresh hm
      obtain ⟨r', hf', hm', hl', ht', he'⟩ :=
        createdSeq_coalesce_invariant tid rest s₁ r₁ s'
          (fun q hq => hall q (List.mem_cons_of_mem p₀ hq)) hfind₁ happ
      have hfold : ∀ (f : EventData → Option String),
          (rest.map (·.1)).foldl (fun a p => f p <|> a) (f p₀.1)
            = lastNonNull ((p₀ :: rest).map (fun pt => f pt.1)) := by
        intro f
        rw [lastNonNull, List.map_cons, List.foldl_cons,
          show ((f p₀.1 <|> none) = f p₀.1) from orElse_none _,
          List.foldl_map, List.foldl_map]
      refine ⟨r', hf', ?_, ?_, ?_, ?_⟩
      · rw [hm', hm₁, hfold (fun p => p.metadata)]
      · rw [hl', hl₁, hfold (fun p => p.label_url)]
      · rw [ht', ht₁, hfold (fun p => p.tracking_url_provider)]
      · rw [he', he₁, hfold (fun p => p.eta)]

/-- C1 counterexample: two `transaction_created` events for the same
transaction id supplying metadata `"a"` then `"b"`; the stored metadata ends
as `"b"` (the last non-null value), not the first non-null value `"a"`
claimed — `COALESCE(excluded.metadata, metadata)` lets a non-null incoming
value overwrite. -/
theorem handle_transaction_created_first_nonnull_cex :
    ((applyCreatedSeq (some ([] : ShippoStore))
        [({ emptyEventData with object_id := some "T", metadata := some "a" }, "t1"),
         ({ emptyEventData with object_id := some "T", metadata := some "b" }, "t2")]).bind
      (fun s' => s'.find? (fun rr => rr.transaction_id == "T"))).map (·.metadata)
      = some (some "b")
    ∧ (some (some "b") : Option (Option String)) ≠ some (some "a") :=
  ⟨by decide, by decide⟩

/-- Concrete witness for C1 (amended), on the two-event sequence of the
counterexample. -/
theorem handle_transaction_created_coalesce_last_witness :
    (applyCreatedSeq (some ([] : ShippoStore))
        [({ emptyEventData with object_id := some "T", metadata := some "a" }, "t1"),
         ({ emptyEventData with object_id := some "T", metadata := some "b" }, "t2")]
      = some ((applyCreatedSeq (some ([] : ShippoStore))
          [({ emptyEventData with object_id := some "T", metadata := some "a" }, "t1"),
           ({ emptyEventData with object_id := some "T", metadata := some "b" }, "t2")]).getD []))
    ∧ ∃ r', ((applyCreatedSeq (some ([] : ShippoStore))
          [({ emptyEventData with object_id := some "T", metadata := some "a" }, "t1"),
           ({ emptyEventData with object_id := some "T", metadata := some "b" }, "t2")]).getD []).find?
            (fun rr => rr.transaction_id == "T") = some r'
        ∧ r'.metadata = lastNonNull
            (([({ emptyEventData with object_id := some "T", metadata := some "a" }, "t1"),
               ({ emptyEventData with object_id := some "T", metadata := some "b" }, "t2")] :
              List (EventData × String)).map (fun pt => pt.1.metadata))
        ∧ r'.label_url = lastNonNull
            (([({ emptyEventData with object_id := some "T", metadata := some "a" }, "t1"),
               ({ emptyEventData with object_id := some "T", metadata := some "b" }, "t2")] :
              List (EventData × String)).map (fun pt => pt.1.label_url))
        ∧ r'.tracking_url = lastNonNull
            (([({ emptyEventData with object_id := some "T", metadata := some "a" }, "t1"),
               ({ emptyEventData with object_id := some "T", metadata := some "b" }, "t2")] :
              List (EventData × String)).map (fun pt => pt.1.tracking_url_provider))
        ∧ r'.eta = lastNonNull
            (([({ emptyEventData with object_id := some "T", metadata := some "a" }, "t1"),
               ({ emptyEventData with object_id := some "T", metadata := some "b" }, "t2")] :
              List (EventData × String)).map (fun pt => pt.1.eta)) :=
  ⟨by decide,
    handle_transaction_created_coalesce_last "T"
      [({ emptyEventData with object_id := some "T", metadata := some "a" }, "t1"),
       ({ emptyEventData with object_id := some "T", metadata := some "b" }, "t2")]
      [] _ (by decide) (by decide) (by decide) (by decide)⟩

/-! ### C6: fallback refines `handle_transaction_created` -/

/-- C6: on a payload whose transaction id matches no existing record,
`handle_transaction_updated` is exactly `handle_transaction_created` on the
same store and payload (the zero-rowcount fallback). -/
theorem handle_transaction_updated_fresh_eq (s : ShippoStore) (d : EventData)
    (now : String) (h : s.any (tidMatches d.object_id) = false) :
    handle_transaction_updated s d now = handle_transaction_created s d now := by
  rcases hts : d.tracking_status with _ | (_ | (sv | ⟨a, b, c⟩)) <;>
    simp [handle_transaction_updated, handle_transaction_created, bindTxnStatus,
      hts, h]

/-- Concrete witness for C6 on an empty store. -/
theorem handle_transaction_updated_fresh_eq_witness :
    (([] : ShippoStore).any
        (tidMatches ({ emptyEventData with object_id := some "tx7" } : EventData).object_id)
      = false)
    ∧ handle_transaction_updated [] { emptyEventData with object_id := some "tx7" } "t0"
      = handle_transaction_created [] { emptyEventData with object_id := some "tx7" } "t0" :=
  ⟨by decide, handle_transaction_updated_fresh_eq [] _ "t0" (by decide)⟩

/-! ### The `track_updated` update and insert paths -/

/-- A successful lookup index points at a row. -/
theorem trackLookup_get (s : ShippoStore) (d : EventData) (i : Nat)
    (hlook : trackLookup s d = some i) : ∃ hit, s[i]? = some hit := by
  unfold trackLookup at hlook
  by_cases ht : pyTruthy d.transaction = true
  · rw [if_pos ht] at hlook
    exact (findFirstIdx_get _ s i hlook).imp (fun a ha => ha.1)
  · rw [if_neg ht] at hlook
    exact (findFirstIdx_get _ s i hlook).imp (fun a ha => ha.1)

/-- When the lookup finds row `i`, a successful `handle_track_updated` maps
exactly `trackUpdateRow` over that row (and every row sharing its id). -/
theorem track_update_existing (s : ShippoStore) (d : EventData) (now : String)
    (i : Nat) (s' : ShippoStore)
    (hlook : trackLookup s d = some i)
    (hstep : handle_track_updated s d now = some s') :
    ∃ hit adrTo adrFrom sv,
      dictOrDefault d.address_to emptyAddr = some adrTo
      ∧ dictOrDefault d.address_from emptyAddr = some adrFrom
      ∧ dictOrDefault d.servicelevel emptyService = some sv
      ∧ s[i]? = some hit
      ∧ s'[i]? = some (trackUpdateRow d adrTo adrFrom sv now hit) := by
  obtain ⟨hit, hget⟩ := trackLookup_get s d i hlook
  cases haT : dictOrDefault d.address_to emptyAddr with
  | none => simp [handle_track_updated, haT] at hstep
  | some adrTo =>
  cases haF : dictOrDefault d.address_from emptyAddr with
  | none => simp [handle_track_updated, haT, haF] at hstep
  | some adrFrom =>
  cases hsv : dictOrDefault d.servicelevel emptyService with
  | none => simp [handle_track_updated, haT, haF, hsv] at hstep
  | some sv =>
    unfold handle_track_updated at hstep
    rw [haT, haF, hsv] at hstep
    dsimp only at hstep
    rw [hlook] at hstep
    dsimp only at hstep
    rw [hget] at hstep
    dsimp only at hstep
    obtain rfl : _ = s' := Option.some.inj hstep
    refine ⟨hit, adrTo, adrFrom, sv, rfl, rfl, rfl, hget, ?_⟩
    rw [List.getElem?_map, hget]
    show some (if (hit.id == hit.id) = true
      then trackUpdateRow d adrTo adrFrom sv now hit else hit) = _
    rw [if_pos (by simp)]

/-- When the lookup finds nothing, a successful `handle_track_updated`
appends exactly `trackInsertRow`. -/
theorem track_insert_fresh (s : ShippoStore) (d : EventData) (now : String)
    (s' : ShippoStore)
    (hlook : trackLookup s d = none)
    (hstep : handle_track_updated s d now = some s') :
    ∃ adrTo adrFrom sv tid,
      s' = s ++ [trackInsertRow d adrTo adrFrom sv now (s.length + 1) tid] := by
  cases haT : dictOrDefault d.address_to emptyAddr with
  | none => simp [handle_track_updated, haT] at hstep
  | some adrTo =>
  cases haF : dictOrDefault d.address_from emptyAddr with
  | none => simp [handle_track_updated, haT, haF] at hstep
  | some adrFrom =>
  cases hsv : dictOrDefault d.servicelevel emptyService with
  | none => simp [handle_track_updated, haT, haF, hsv] at hstep
  | some sv =>
    unfold handle_track_updated at hstep
    rw [haT, haF, hsv] at hstep
    dsimp only at hstep
    rw [hlook] at hstep
    dsimp only at hstep
    by_cases hdup : s.any (fun r => r.transaction_id ==
        (if pyTruthy d.transaction then pyStr d.transaction
         else "track_" ++ pyStr d.tracking_number)) = true
    · rw [if_pos hdup] at hstep
      cases hstep
    · rw [if_neg hdup] at hstep
      exact ⟨adrTo, adrFrom, sv, _, (Option.some.inj hstep).symm⟩

/-! ### C2: `delivered_at` under repeated track events -/

/-- C2 counterexample: a record already delivered at `2024-01-01` receives a
second `DELIVERED` track event dated `2024-02-02`, and `delivered_at`
changes — `COALESCE(?, delivered_at)` puts the incoming value first, so
`delivered_at` is not write-once. -/
theorem handle_track_updated_delivered_overwrite_cex :
    (handle_track_updated
        [{ sampleRecord with delivered_at := some "2024-01-01" }]
        { emptyEventData with
            transaction := some "tx1",
            tracking_status := some (some (.obj (some (some "DELIVERED")) none
              (some "2024-02-02"))) }
        "n").map (fun s' => s'.map (·.delivered_at))
      = some [some "2024-02-02"]
    ∧ (some "2024-02-02" : Option String) ≠ some "2024-01-01" :=
  ⟨by decide, by decide⟩

/-- C2 (amended): on an existing record, `handle_track_updated` sets
`delivered_at` to `COALESCE(incoming, stored)`: a call whose computed
delivery date is null (status not `DELIVERED`, or a `DELIVERED` status
without a date) leaves a previously set `delivered_at` unchanged, but a
`DELIVERED` event with a non-null `status_date` overwrites it — the field is
last-delivery-date-wins, not write-once. -/
theorem handle_track_updated_delivered_coalesce (s : ShippoStore)
    (d : EventData) (now : String) (i : Nat) (s' : ShippoStore)
    (hlook : trackLookup s d = some i)
    (hstep : handle_track_updated s d now = some s') :
    (s'[i]?).map (·.delivered_at)
      = (s[i]?).map (fun r => trackDelivered d.tracking_status <|> r.delivered_at) := by
  obtain ⟨hit, adrTo, adrFrom, sv, _, _, _, hget, hget'⟩ :=
    track_update_existing s d now i s' hlook hstep
  rw [hget, hget']
  rfl

/-- Concrete witness for C2 (amended): the delivered-overwrite scenario of
the counterexample, read through the amended equation. -/
theorem handle_track_updated_delivered_coalesce_witness :
    (trackLookup [{ sampleRecord with delivered_at := some "2024-01-01" }]
        { emptyEventData with
            transaction := some "tx1",
            tracking_status := some (some (.obj (some (some "DELIVERED")) none
              (some "2024-02-02"))) } = some 0)
    ∧ (handle_track_updated
          [{ sampleRecord with delivered_at := some "2024-01-01" }]
          { emptyEventData with
              transaction := some "tx1",
              tracking_status := some (some (.obj (some (some "DELIVERED")) none
                (some "2024-02-02"))) } "n"
        = some ((handle_track_updated
            [{ sampleRecord with delivered_at := some "2024-01-01" }]
            { emptyEventData with
                transaction := some "tx1",
                tracking_status := some (some (.obj (some (some "DELIVERED")) none
                  (some "2024-02-02"))) } "n").getD []))
    ∧ ((((handle_track_updated
            [{ sampleRecord with delivered_at := some "2024-01-01" }]
            { emptyEventData with
                transaction := some "tx1",
                tracking_status := some (some (.obj (some (some "DELIVERED")) none
                  (some "2024-02-02"))) } "n").getD [])[0]?).map (·.delivered_at)
        = (([{ sampleRecord with delivered_at := some "2024-01-01" }] :
              ShippoStore)[0]?).map (fun r =>
            trackDelivered ({ emptyEventData with
                transaction := some "tx1",
                tracking_status := some (some (.obj (some (some "DELIVERED")) none
                  (some "2024-02-02"))) } : EventData).tracking_status
              <|> r.delivered_at)) :=
  ⟨by decide, by decide,
    handle_track_updated_delivered_coalesce _ _ "n" 0 _ (by decide) (by decide)⟩

/-! ### C7: the history array is replaced wholesale -/

/-- The payload's `tracking_history` as an array: absent key defaults to
`[]`, an explicit JSON null (not an array) is `none`. -/
def histArr : Option (Option (List String)) → Option (List String)
  | none => some []
  | some none => none
  | some (some l) => some l

theorem trackHist_of_histArr (x : Option (Option (List String)))
    (hs : List String) (h : histArr x = some hs) : trackHist x = .jarr hs := by
  cases x with
  | none =>
    obtain rfl : [] = hs := Option.some.inj h
    rfl
  | some o =>
    cases o with
    | none => cases h
    | some l =>
      obtain rfl : l = hs := Option.some.inj h
      rfl

/-- C7: after a successful `handle_track_updated` whose payload history is an
array of length K, the affected record's stored `tracking_history` decodes to
exactly that array (so to length K — full replacement, the prior history
contributes nothing).  The affected record is the looked-up row when one
exists, else the appended row. -/
theorem handle_track_updated_history_replace (s : ShippoStore) (d : EventData)
    (now : String) (s' : ShippoStore) (hs : List String)
    (hhist : histArr d.tracking_history = some hs)
    (hstep : handle_track_updated s d now = some s') :
    (match trackLookup s d with
     | some i => (s'[i]?).map (fun r => decodeHist r.tracking_history)
     | none => s'.getLast?.map (fun r => decodeHist r.tracking_history))
      = some (DecodedHist.arr hs) := by
  cases hlook : trackLookup s d with
  | some i =>
    obtain ⟨hit, adrTo, adrFrom, sv, _, _, _, hget, hget'⟩ :=
      track_update_existing s d now i s' hlook hstep
    dsimp only
    rw [hget']
    show some (decodeHist (some (trackHist d.tracking_history))) = _
    rw [trackHist_of_histArr d.tracking_history hs hhist]
    rfl
  | none =>
    obtain ⟨adrTo, adrFrom, sv, tid, rfl⟩ := track_insert_fresh s d now s' hlook hstep
    dsimp only
    rw [List.getLast?_concat]
    show some (decodeHist (some (trackHist d.tracking_history))) = _
    rw [trackHist_of_histArr d.tracking_history hs hhist]
    rfl

/-- Concrete witness for C7: a three-entry history arriving for an unknown
tracking number; the inserted record's decoded history is exactly those three
entries. -/
theorem handle_track_updated_history_replace_witness :
    (histArr ({ emptyEventData with
        tracking_number := some "TNX",
        tracking_history := some (some ["e1", "e2", "e3"]) } : EventData).tracking_history
      = some ["e1", "e2", "e3"])
    ∧ (handle_track_updated [] { emptyEventData with
          tracking_number := some "TNX",
          tracking_history := some (some ["e1", "e2", "e3"]) } "t0"
        = some ((handle_track_updated [] { emptyEventData with
            tracking_number := some "TNX",
            tracking_history := some (some ["e1", "e2", "e3"]) } "t0").getD []))
    ∧ ((match trackLookup [] { emptyEventData with
            tracking_number := some "TNX",
            tracking_history := some (some ["e1", "e2", "e3"]) } with
        | some i => (((handle_track_updated [] { emptyEventData with
              tracking_number := some "TNX",
              tracking_history := some (some ["e1", "e2", "e3"]) } "t0").getD [])[i]?).map
            (fun r => decodeHist r.tracking_history)
        | none => ((handle_track_updated [] { emptyEventData with
              tracking_number := some "TNX",
              tracking_history := some (some ["e1", "e2", "e3"]) } "t0").getD []).getLast?.map
            (fun r => decodeHist r.tracking_history))
        = some (DecodedHist.arr ["e1", "e2", "e3"])) :=
  ⟨by decide, by decide,
    handle_track_updated_history_replace [] { emptyEventData with
        tracking_number := some "TNX",
        tracking_history := some (some ["e1", "e2", "e3"]) } "t0"
      ((handle_track_updated [] { emptyEventData with
          tracking_number := some "TNX",
          tracking_history := some (some ["e1", "e2", "e3"]) } "t0").getD [])
      ["e1", "e2", "e3"] (by decide) (by decide)⟩

/-! ### C10: fields `handle_track_updated` leaves untouched -/

/-- C10: when `handle_track_updated` updates an existing record, the record's
`transaction_id`, `created_at`, `metadata`, `label_url` and `tracking_url`
are unchanged, for every payload (those columns are absent from the UPDATE's
SET list). -/
theorem handle_track_updated_frame (s : ShippoStore) (d : EventData)
    (now : String) (i : Nat) (s' : ShippoStore)
    (hlook : trackLookup s d = some i)
    (hstep : handle_track_updated s d now = some s') :
    (s'[i]?).map (fun r =>
        (r.transaction_id, r.created_at, r.metadata, r.label_url, r.tracking_url))
      = (s[i]?).map (fun r =>
        (r.transaction_id, r.created_at, r.metadata, r.label_url, r.tracking_url)) := by
  obtain ⟨hit, adrTo, adrFrom, sv, _, _, _, hget, hget'⟩ :=
    track_update_existing s d now i s' hlook hstep
  rw [hget, hget']
  rfl

/-- Concrete witness for C10: a full track event with addresses, service and
history hits the sample record; its identity, creation time, metadata and
URL columns survive unchanged. -/
theorem handle_track_updated_frame_witness :
    (trackLookup [sampleRecord] { emptyEventData with
        transaction := some "tx1",
        tracking_status := some (some (.str "TRANSIT")),
        address_to := some (some ⟨some "Ann", some "Austin", some "TX",
          some "78701", some "US"⟩),
        tracking_history := some (some ["h1"]) } = some 0)
    ∧ (handle_track_updated [sampleRecord] { emptyEventData with
          transaction := some "tx1",
          tracking_status := some (some (.str "TRANSIT")),
          address_to := some (some ⟨some "Ann", some "Austin", some "TX",
            some "78701", some "US"⟩),
          tracking_history := some (some ["h1"]) } "t5"
        = some ((handle_track_updated [sampleRecord] { emptyEventData with
            transaction := some "tx1",
            tracking_status := some (some (.str "TRANSIT")),
            address_to := some (some ⟨some "Ann", some "Austin", some "TX",
              some "78701", some "US"⟩),
            tracking_history := some (some ["h1"]) } "t5").getD []))
    ∧ ((((handle_track_updated [sampleRecord] { emptyEventData with
            transaction := some "tx1",
            tracking_status := some (some (.str "TRANSIT")),
            address_to := some (some ⟨some "Ann", some "Austin", some "TX",
              some "78701", some "US"⟩),
            tracking_history := some (some ["h1"]) } "t5").getD [])[0]?).map (fun r =>
          (r.transaction_id, r.created_at, r.metadata, r.label_url, r.tracking_url))
        = (([sampleRecord] : ShippoStore)[0]?).map (fun r =>
          (r.transaction_id, r.created_at, r.metadata, r.label_url, r.tracking_url))) :=
  ⟨by decide, by decide,
    handle_track_updated_frame [sampleRecord] { emptyEventData with
        transaction := some "tx1",
        tracking_status := some (some (.str "TRANSIT")),
        address_to := some (some ⟨some "Ann", some "Austin", some "TX",
          some "78701", some "US"⟩),
        tracking_history := some (some ["h1"]) } "t5" 0
      ((handle_track_updated [sampleRecord] { emptyEventData with
          transaction := some "tx1",
          tracking_status := some (some (.str "TRANSIT")),
          address_to := some (some ⟨some "Ann", some "Austin", some "TX",
            some "78701", some "US"⟩),
          tracking_history := some (some ["h1"]) } "t5").getD [])
      (by decide) (by decide)⟩

end Shippo
